import Mathlib

/-!
Verification of the recipe-chatbot backend (src/backend/utils.py).

The module under study exposes a constant system prompt built with
textwrap.dedent from concatenated string literals (one of them an f-string
splicing the current month name), a MODEL_NAME constant read from the
environment with a fixed default, and a single function get_agent_response
that conditionally prepends a system message to the conversation history,
calls the litellm completion provider, strips the reply and appends it as an
assistant message.

The embedding below renders each of these as executable Lean definitions:
Python lists of role/content dicts become lists of a Message structure, the
provider becomes a function parameter returning an Except value, Python
exceptions become error values, and the process environment and the current
month become explicit parameters of the startup constants.
-/

namespace RecipeChatbot

/-- A conversation message: a Python dict with a role and a content string. -/
structure Message where
  role : String
  content : String
deriving DecidableEq, Repr

/-- The message object inside one choice of a completion response.
The content field is optional: none models a missing content key or a
null value, either of which makes the Python access raise. -/
structure ChoiceMessage where
  content : Option String
deriving DecidableEq, Repr

/-- One element of the choices list of a completion response; the message
field is optional, none modelling a missing message key. -/
structure Choice where
  message : Option ChoiceMessage
deriving DecidableEq, Repr

/-- The shape of a provider completion response consumed by the code:
a list of choices, of which only element 0 is read. -/
structure CompletionResponse where
  choices : List Choice
deriving DecidableEq, Repr

/-- Errors surfaced by get_agent_response: either an error raised by the
completion call itself (carrying the unchanged provider error value), or
a failure to find the choices[0].message.content path in the response. -/
inductive AgentError (ε : Type) where
  | provider (e : ε)
  | malformedResponse
deriving DecidableEq, Repr

/-- The whitespace characters removed by Python str.strip (ASCII range). -/
def isPyWhitespace (c : Char) : Bool :=
  c = ' ' || c = '\t' || c = '\n' || c = '\r' || c = '\x0b' || c = '\x0c'

/-- Python str.strip: remove leading and trailing whitespace. -/
def pyStrip (s : String) : String :=
  String.mk (((s.data.dropWhile isPyWhitespace).reverse.dropWhile isPyWhitespace).reverse)

/-- Characters counted as indentation by textwrap.dedent (space and tab). -/
def isIndentChar (c : Char) : Bool :=
  c = ' ' || c = '\t'

/-- Split a character list into lines at newline characters, like
Python text.split with a newline separator. -/
def splitLines : List Char → List (List Char)
  | [] => [[]]
  | c :: cs =>
    if c = '\n' then [] :: splitLines cs
    else
      match splitLines cs with
      | l :: ls => (c :: l) :: ls
      | [] => [[c]]

/-- Rejoin lines with newline characters. -/
def joinLines : List (List Char) → List Char
  | [] => []
  | [l] => l
  | l :: ls => l ++ '\n' :: joinLines ls

/-- textwrap.dedent first replaces lines consisting solely of spaces and
tabs by empty lines. -/
def normalizeLine (l : List Char) : List Char :=
  if !l.isEmpty && l.all isIndentChar then [] else l

/-- The leading run of indentation characters of a line. -/
def lineIndent (l : List Char) : List Char :=
  l.takeWhile isIndentChar

/-- Longest common prefix of two indentation runs, as textwrap.dedent
computes it while folding over the per-line indents. -/
def commonIndent : List Char → List Char → List Char
  | x :: xs, y :: ys => if x = y then x :: commonIndent xs ys else []
  | _, _ => []

/-- The common indentation margin of the non-empty (already normalized)
lines; empty when there is no such line. -/
def marginOf (lines : List (List Char)) : List Char :=
  match (lines.filter (fun l => !l.isEmpty)).map lineIndent with
  | [] => []
  | i :: is => is.foldl commonIndent i

/-- Remove the margin from a line when the line starts with it. -/
def stripMargin (margin : List Char) (l : List Char) : List Char :=
  if l.take margin.length = margin then l.drop margin.length else l

/-- textwrap.dedent on a character list: normalize whitespace-only lines,
compute the common margin of the remaining lines, strip it from every line. -/
def dedentChars (text : List Char) : List Char :=
  let lines := (splitLines text).map normalizeLine
  joinLines (lines.map (stripMargin (marginOf lines)))

/-- textwrap.dedent on strings. -/
def dedent (s : String) : String :=
  String.mk (dedentChars s.data)

/-- First string literal of the SYSTEM_PROMPT concatenation (the Role
section, verbatim from the source including trailing spaces). -/
def promptPiece1 : String :=
  "\n    Role: \n        You are a helpful and funny recipe recommender, who uses slang in its responses.\n    "

/-- Text of the second literal (an f-string) up to the spliced month name. -/
def promptPiece2a : String :=
  "\n    Instructions / Response Rules:\n        - Respond in Russian language. Do not use any other language.\n        - Always provide incredient lists for the recipes. \n        - Always suggest seasonal ingredients. Current season is "

/-- Text of the second literal after the spliced month name; it carries the
fixed country value Spain. -/
def promptPiece2b : String :=
  " and the country is Spain.\n        - Avoid using meat, cheese, eggs, and other dairy products.\n    "

/-- Third string literal (the Output formatting section). -/
def promptPiece3 : String :=
  "\n    Output formatting:    \n        - Structure your responses clearly using Markdown for formatting\n        - Begin every recipe response with the recipe name in Level 2 Heading (e.g., `## Amazing Blueberry Muffins`)\n    "

/-- Fourth string literal (the reasoning line). -/
def promptPiece4 : String :=
  "Think step by step"

/-- The argument of textwrap.dedent: the concatenation of the adjacent
string literals of the source, with the month name spliced in where the
f-string interpolates the current month. -/
def SYSTEM_PROMPT_raw (month : String) : String :=
  promptPiece1 ++ promptPiece2a ++ month ++ promptPiece2b ++ promptPiece3 ++ promptPiece4

/-- The module-level SYSTEM_PROMPT constant, as a function of the month
name the process observes at startup. -/
def SYSTEM_PROMPT (month : String) : String :=
  dedent (SYSTEM_PROMPT_raw month)

/-- The module-level MODEL_NAME constant: the MODEL_NAME environment
variable when set, the fixed default otherwise. The process environment is
an explicit lookup function. -/
def MODEL_NAME (env : String → Option String) : String :=
  (env "MODEL_NAME").getD "gpt-4o-mini"

/-- The working history current_messages of get_agent_response: when the
history is empty or its first message role is not system, a fresh system
message carrying the system prompt is prepended; otherwise the history is
used as is. -/
def current_messages (systemPrompt : String) (messages : List Message) : List Message :=
  match messages with
  | [] => [⟨"system", systemPrompt⟩]
  | m :: _ =>
    if m.role != "system" then ⟨"system", systemPrompt⟩ :: messages
    else messages

/-- The access completion choices[0] message content of the source,
returning none when any step of the path is missing. -/
def extractContent (r : CompletionResponse) : Option String :=
  match r.choices.head? with
  | none => none
  | some c =>
    match c.message with
    | none => none
    | some m => m.content

/-- get_agent_response: build the working history, issue one completion
call, and either propagate the provider error, fail on a malformed
response, or append the stripped reply as an assistant message. The
provider, the environment and the startup month are explicit parameters. -/
def get_agent_response {ε : Type} (env : String → Option String) (month : String)
    (provider : String → List Message → Except ε CompletionResponse)
    (messages : List Message) : Except (AgentError ε) (List Message) :=
  let current := current_messages (SYSTEM_PROMPT month) messages
  match provider (MODEL_NAME env) current with
  | Except.error e => Except.error (AgentError.provider e)
  | Except.ok completion =>
    match extractContent completion with
    | none => Except.error AgentError.malformedResponse
    | some content => Except.ok (current ++ [⟨"assistant", pyStrip content⟩])

/-- A heap of Python list objects, indexed by allocation order. -/
abbrev Heap := List (List Message)

/-- Second half of the heap-level rendering: issue the completion call on
the current list and, on success, allocate the fresh updated_messages list
produced by the final concatenation. -/
def heapComplete {ε : Type} (provider : String → List Message → Except ε CompletionResponse)
    (modelName : String) (hp1 : Heap) (current : List Message) :
    Heap × Except (AgentError ε) Nat :=
  match provider modelName current with
  | Except.error e => (hp1, Except.error (AgentError.provider e))
  | Except.ok completion =>
    match extractContent completion with
    | none => (hp1, Except.error AgentError.malformedResponse)
    | some content =>
      (hp1 ++ [current ++ [⟨"assistant", pyStrip content⟩]], Except.ok hp1.length)

/-- The guard of the prepend branch: true when the history is empty or its
first message role is not system, in which case a fresh list is
allocated by the concatenation. -/
def needsFresh (messages : List Message) : Bool :=
  match messages with
  | [] => true
  | m :: _ => m.role != "system"

/-- Heap-level rendering of get_agent_response, making the Python list
allocations explicit: list concatenation allocates a fresh list, while the
else branch merely aliases the caller list. Returns the final heap
together with the address of the returned list (or the propagated error). -/
def get_agent_response_heap {ε : Type} (env : String → Option String) (month : String)
    (provider : String → List Message → Except ε CompletionResponse)
    (hp : Heap) (addr : Nat) : Heap × Except (AgentError ε) Nat :=
  let messages := hp[addr]?.getD []
  let hp1 := if needsFresh messages then hp ++ [⟨"system", SYSTEM_PROMPT month⟩ :: messages]
    else hp
  let curAddr := if needsFresh messages then hp.length else addr
  heapComplete provider (MODEL_NAME env) hp1 (hp1[curAddr]?.getD [])

/-- A response whose single choice carries the given content string. -/
def okResponse (c : String) : CompletionResponse :=
  ⟨[⟨some ⟨some c⟩⟩]⟩

/-! Helper lemmas about pyStrip. -/

/-- The head of a dropWhile result never satisfies the dropped predicate. -/
theorem head?_dropWhile_not {α : Type} (p : α → Bool) (l : List α) (c : α)
    (h : (l.dropWhile p).head? = some c) : p c = false := by
  induction l with
  | nil => simp at h
  | cons x xs ih =>
    rw [List.dropWhile_cons] at h
    cases hx : p x
    · rw [hx] at h
      simp at h
      exact h ▸ hx
    · rw [hx] at h
      simp at h
      exact ih h

/-- dropWhile only removes elements from the front, so when the result is
non-empty its last element is the last element of the input. -/
theorem getLast?_dropWhile {α : Type} (p : α → Bool) (l : List α)
    (h : l.dropWhile p ≠ []) : (l.dropWhile p).getLast? = l.getLast? := by
  obtain ⟨t, ht⟩ := List.dropWhile_suffix (l := l) p
  conv_rhs => rw [← ht]
  exact (List.getLast?_append_of_ne_nil t h).symm

/-- The characters of pyStrip, unfolded. -/
theorem pyStrip_data (s : String) :
    (pyStrip s).data =
      ((s.data.dropWhile isPyWhitespace).reverse.dropWhile isPyWhitespace).reverse := rfl

/-- The first character of a stripped string is never whitespace. -/
theorem pyStrip_head_not_ws (r : String) (c : Char)
    (h : (pyStrip r).data.head? = some c) : isPyWhitespace c = false := by
  rw [pyStrip_data, List.head?_reverse] at h
  by_cases hne : (r.data.dropWhile isPyWhitespace).reverse.dropWhile isPyWhitespace = []
  · rw [hne] at h
    simp at h
  · rw [getLast?_dropWhile _ _ hne, List.getLast?_reverse] at h
    exact head?_dropWhile_not _ _ _ h

/-- The last character of a stripped string is never whitespace. -/
theorem pyStrip_getLast_not_ws (r : String) (c : Char)
    (h : (pyStrip r).data.getLast? = some c) : isPyWhitespace c = false := by
  rw [pyStrip_data, List.getLast?_reverse] at h
  exact head?_dropWhile_not _ _ _ h

/-- Stripping a string of whitespace characters leaves the empty string. -/
theorem pyStrip_of_all_ws (r : String) (h : r.data.all isPyWhitespace = true) :
    pyStrip r = "" := by
  have h1 : r.data.dropWhile isPyWhitespace = [] :=
    List.dropWhile_eq_nil_iff.mpr (fun x hx => List.all_eq_true.mp h x hx)
  unfold pyStrip
  rw [h1]
  rfl

/-- Any successful result of get_agent_response is the working history plus
one assistant message carrying a stripped reply obtained from a successful
completion call. -/
theorem get_agent_response_ok_shape {ε : Type} (env : String → Option String) (month : String)
    (provider : String → List Message → Except ε CompletionResponse)
    (h : List Message) (out : List Message)
    (hok : get_agent_response env month provider h = Except.ok out) :
    ∃ resp r,
      provider (MODEL_NAME env) (current_messages (SYSTEM_PROMPT month) h) = Except.ok resp ∧
      extractContent resp = some r ∧
      out = current_messages (SYSTEM_PROMPT month) h ++ [⟨"assistant", pyStrip r⟩] := by
  simp only [get_agent_response] at hok
  split at hok
  · cases hok
  · rename_i resp hp
    split at hok
    · cases hok
    · rename_i r hr
      exact ⟨resp, r, hp, hr, (Except.ok.inj hok).symm⟩

/-! Claim theorems. -/

/-- C1: for every history and every provider reply text, get_agent_response
returns the working history plus one new assistant message whose content is
the reply with leading and trailing whitespace removed; the length of the result
is the length of the working history plus one, the role of its last element is
assistant, and the appended content carries no leading or trailing
whitespace. -/
theorem respond_appends_stripped_reply {ε : Type} (env : String → Option String)
    (month : String) (provider : String → List Message → Except ε CompletionResponse)
    (h : List Message) (resp : CompletionResponse) (r : String)
    (hp : provider (MODEL_NAME env) (current_messages (SYSTEM_PROMPT month) h) = Except.ok resp)
    (hr : extractContent resp = some r) :
    get_agent_response env month provider h =
      Except.ok (current_messages (SYSTEM_PROMPT month) h ++ [Message.mk "assistant" (pyStrip r)]) ∧
    (current_messages (SYSTEM_PROMPT month) h ++ [Message.mk "assistant" (pyStrip r)]).length =
      (current_messages (SYSTEM_PROMPT month) h).length + 1 ∧
    (current_messages (SYSTEM_PROMPT month) h ++
        [Message.mk "assistant" (pyStrip r)]).getLast?.map Message.role = some "assistant" ∧
    (∀ c, (pyStrip r).data.head? = some c → isPyWhitespace c = false) ∧
    (∀ c, (pyStrip r).data.getLast? = some c → isPyWhitespace c = false) := by
  refine ⟨?_, by simp, ?_, fun c hc => pyStrip_head_not_ws r c hc,
    fun c hc => pyStrip_getLast_not_ws r c hc⟩
  · simp only [get_agent_response, hp, hr]
  · rw [List.getLast?_concat]
    rfl

/-- Witness for respond_appends_stripped_reply at a concrete provider,
history and reply. -/
theorem respond_appends_stripped_reply_witness :
    get_agent_response (fun _ => none) "January"
        (fun _ _ => (Except.ok (okResponse "  hi  ") : Except Unit CompletionResponse)) [] =
      Except.ok (current_messages (SYSTEM_PROMPT "January") [] ++
        [⟨"assistant", pyStrip "  hi  "⟩]) :=
  (respond_appends_stripped_reply (fun _ => none) "January"
    (fun _ _ => (Except.ok (okResponse "  hi  ") : Except Unit CompletionResponse))
    [] (okResponse "  hi  ") "  hi  " rfl rfl).1

/-- C2: when the history is empty or its first message role is not system,
the working history (the sequence passed to the provider, and the part of
the returned history before the reply) is the system message followed by
the history; otherwise it is the history unchanged. -/
theorem working_history_construction (month : String) (h : List Message) :
    ((h = [] ∨ h.head?.map Message.role ≠ some "system") →
      current_messages (SYSTEM_PROMPT month) h = ⟨"system", SYSTEM_PROMPT month⟩ :: h) ∧
    (h.head?.map Message.role = some "system" →
      current_messages (SYSTEM_PROMPT month) h = h) ∧
    (∀ (ε : Type) (env : String → Option String)
        (provider : String → List Message → Except ε CompletionResponse)
        (out : List Message),
      get_agent_response env month provider h = Except.ok out →
      out.take (current_messages (SYSTEM_PROMPT month) h).length =
        current_messages (SYSTEM_PROMPT month) h) := by
  refine ⟨?_, ?_, ?_⟩
  · intro hcond
    cases h with
    | nil => rfl
    | cons m t =>
      rcases hcond with hnil | hrole
      · exact absurd hnil (by simp)
      · have hb : (m.role != "system") = true := bne_iff_ne.mpr (by simpa using hrole)
        simp [current_messages, hb]
  · intro hrole
    cases h with
    | nil => simp at hrole
    | cons m t =>
      have hm : m.role = "system" := by simpa using hrole
      simp [current_messages, hm]
  · intro ε env provider out hok
    obtain ⟨resp, r, hp2, hr2, hout⟩ :=
      get_agent_response_ok_shape env month provider h out hok
    rw [hout]
    exact List.take_left _ _

/-- Witness for working_history_construction at a concrete non-system
history. -/
theorem working_history_construction_witness :
    current_messages (SYSTEM_PROMPT "January") [⟨"user", "hi"⟩] =
      ⟨"system", SYSTEM_PROMPT "January"⟩ :: [⟨"user", "hi"⟩] :=
  (working_history_construction "January" [⟨"user", "hi"⟩]).1 (Or.inr (by decide))

/-- C3: an error raised by the completion call is propagated unchanged to
the caller; no fallback result and no partial history is returned. -/
theorem provider_error_propagated {ε : Type} (env : String → Option String)
    (month : String) (provider : String → List Message → Except ε CompletionResponse)
    (h : List Message) (e : ε)
    (hp : provider (MODEL_NAME env) (current_messages (SYSTEM_PROMPT month) h) = Except.error e) :
    get_agent_response env month provider h = Except.error (AgentError.provider e) ∧
    ∀ out, get_agent_response env month provider h ≠ Except.ok out := by
  have h1 : get_agent_response env month provider h = Except.error (AgentError.provider e) := by
    simp only [get_agent_response, hp]
  refine ⟨h1, fun out hc => ?_⟩
  rw [h1] at hc
  cases hc

/-- Witness for provider_error_propagated at a concrete failing provider. -/
theorem provider_error_propagated_witness :
    get_agent_response (fun _ => none) "January"
        (fun _ _ => (Except.error "boom" : Except String CompletionResponse)) [] =
      Except.error (AgentError.provider "boom") :=
  (provider_error_propagated (fun _ => none) "January"
    (fun _ _ => Except.error "boom") [] "boom" rfl).1

/-- C4 as stated fails on the code: a history whose first element has role
system may contain a second system message, which get_agent_response keeps,
so the result holds two system messages rather than exactly one. -/
theorem system_not_deduplicated_counterexample :
    get_agent_response (fun _ => none) "January"
        (fun _ _ => (Except.ok (okResponse "ok") : Except Unit CompletionResponse))
        [Message.mk "system" "a", Message.mk "system" "b"] =
      Except.ok [Message.mk "system" "a", Message.mk "system" "b",
        Message.mk "assistant" "ok"] ∧
    List.countP (fun x => x.role == "system")
        [Message.mk "system" "a", Message.mk "system" "b",
          Message.mk "assistant" "ok"] ≠ 1 :=
  ⟨rfl, by decide⟩

/-- C4 amended: for every non-empty history whose first element has role
system and which contains exactly one system message, get_agent_response
does not duplicate it: exactly one system message remains, at position 0 of
the result. -/
theorem single_system_message_preserved {ε : Type} (env : String → Option String)
    (month : String) (provider : String → List Message → Except ε CompletionResponse)
    (m : Message) (t : List Message) (resp : CompletionResponse) (r : String)
    (hm : m.role = "system")
    (hcount : List.countP (fun x => x.role == "system") (m :: t) = 1)
    (hp : provider (MODEL_NAME env) (current_messages (SYSTEM_PROMPT month) (m :: t)) =
      Except.ok resp)
    (hr : extractContent resp = some r) :
    ∃ out, get_agent_response env month provider (m :: t) = Except.ok out ∧
      List.countP (fun x => x.role == "system") out = 1 ∧
      out.head? = some m := by
  have hcur : current_messages (SYSTEM_PROMPT month) (m :: t) = m :: t := by
    simp [current_messages, hm]
  rw [hcur] at hp
  refine ⟨(m :: t) ++ [Message.mk "assistant" (pyStrip r)], ?_, ?_, ?_⟩
  · simp only [get_agent_response, hcur, hp, hr]
  · rw [List.countP_append]
    simp [hcount]
  · rfl

/-- Witness for single_system_message_preserved at a concrete one-element
system history. -/
theorem single_system_message_preserved_witness :
    ∃ out, get_agent_response (fun _ => none) "January"
        (fun _ _ => (Except.ok (okResponse "ok") : Except Unit CompletionResponse))
        [Message.mk "system" "S"] = Except.ok out ∧
      List.countP (fun x => x.role == "system") out = 1 ∧
      out.head? = some (Message.mk "system" "S") :=
  single_system_message_preserved (fun _ => none) "January"
    (fun _ _ => (Except.ok (okResponse "ok") : Except Unit CompletionResponse))
    (Message.mk "system" "S") [] (okResponse "ok") "ok" rfl (by decide) rfl rfl

/-- C5: when the provider response lacks the expected
choices[0].message.content path, get_agent_response fails with the
malformed-response error rather than silently returning any content. -/
theorem malformed_response_surfaced {ε : Type} (env : String → Option String)
    (month : String) (provider : String → List Message → Except ε CompletionResponse)
    (h : List Message) (resp : CompletionResponse)
    (hp : provider (MODEL_NAME env) (current_messages (SYSTEM_PROMPT month) h) = Except.ok resp)
    (hr : extractContent resp = none) :
    get_agent_response env month provider h = Except.error AgentError.malformedResponse ∧
    ∀ out, get_agent_response env month provider h ≠ Except.ok out := by
  have h1 : get_agent_response env month provider h =
      Except.error AgentError.malformedResponse := by
    simp only [get_agent_response, hp, hr]
  refine ⟨h1, fun out hc => ?_⟩
  rw [h1] at hc
  cases hc

/-- Witness for malformed_response_surfaced at a response with an empty
choices list. -/
theorem malformed_response_surfaced_witness :
    get_agent_response (fun _ => none) "January"
        (fun _ _ => (Except.ok (⟨[]⟩ : CompletionResponse) : Except Unit CompletionResponse))
        [] =
      Except.error AgentError.malformedResponse :=
  (malformed_response_surfaced (fun _ => none) "January"
    (fun _ _ => Except.ok ⟨[]⟩) [] ⟨[]⟩ rfl rfl).1

/-- C9: when the caller already supplies a leading system message,
get_agent_response keeps it verbatim at position 0 of the working history
and of the result; the precomputed prompt is never substituted for the
caller content. -/
theorem caller_system_message_kept {ε : Type} (env : String → Option String)
    (month : String) (provider : String → List Message → Except ε CompletionResponse)
    (m : Message) (t : List Message)
    (hm : m.role = "system") :
    current_messages (SYSTEM_PROMPT month) (m :: t) = m :: t ∧
    ∀ out, get_agent_response env month provider (m :: t) = Except.ok out →
      out.head? = some m := by
  have hcur : current_messages (SYSTEM_PROMPT month) (m :: t) = m :: t := by
    simp [current_messages, hm]
  refine ⟨hcur, fun out hok => ?_⟩
  obtain ⟨resp, r, hp2, hr2, hout⟩ :=
    get_agent_response_ok_shape env month provider (m :: t) out hok
  rw [hout, hcur]
  rfl

/-- Witness for caller_system_message_kept at a concrete system-first
history. -/
theorem caller_system_message_kept_witness :
    current_messages (SYSTEM_PROMPT "January") [Message.mk "system" "S"] =
      [Message.mk "system" "S"] :=
  (caller_system_message_kept (fun _ => none) "January"
    (fun _ _ => (Except.ok (okResponse "x") : Except Unit CompletionResponse))
    (Message.mk "system" "S") [] rfl).1

/-- C10: a whitespace-only provider reply is not treated as an error:
get_agent_response succeeds and appends an assistant message whose content
is the empty string. -/
theorem whitespace_reply_gives_empty_content {ε : Type} (env : String → Option String)
    (month : String) (provider : String → List Message → Except ε CompletionResponse)
    (h : List Message) (resp : CompletionResponse) (r : String)
    (hp : provider (MODEL_NAME env) (current_messages (SYSTEM_PROMPT month) h) = Except.ok resp)
    (hr : extractContent resp = some r)
    (hws : r.data.all isPyWhitespace = true) :
    get_agent_response env month provider h =
      Except.ok (current_messages (SYSTEM_PROMPT month) h ++ [Message.mk "assistant" ""]) ∧
    ∀ e, get_agent_response env month provider h ≠ Except.error e := by
  have hs : pyStrip r = "" := pyStrip_of_all_ws r hws
  have h1 : get_agent_response env month provider h =
      Except.ok (current_messages (SYSTEM_PROMPT month) h ++ [Message.mk "assistant" ""]) := by
    simp only [get_agent_response, hp, hr, hs]
  refine ⟨h1, fun e hc => ?_⟩
  rw [h1] at hc
  cases hc

/-- Witness for whitespace_reply_gives_empty_content at a concrete
whitespace-only reply. -/
theorem whitespace_reply_gives_empty_content_witness :
    get_agent_response (fun _ => none) "January"
        (fun _ _ => (Except.ok (okResponse " \n\t ") : Except Unit CompletionResponse)) [] =
      Except.ok (current_messages (SYSTEM_PROMPT "January") [] ++
        [Message.mk "assistant" ""]) :=
  (whitespace_reply_gives_empty_content (fun _ => none) "January"
    (fun _ _ => Except.ok (okResponse " \n\t ")) [] (okResponse " \n\t ") " \n\t "
    rfl rfl (by decide)).1

/-- heapComplete only appends to the heap it is given, and any address it
returns is the length of that heap, hence fresh. -/
theorem heapComplete_extends {ε : Type}
    (provider : String → List Message → Except ε CompletionResponse)
    (modelName : String) (hp1 : Heap) (current : List Message) :
    ∃ ext : Heap, (heapComplete provider modelName hp1 current).1 = hp1 ++ ext ∧
      ∀ a, (heapComplete provider modelName hp1 current).2 = Except.ok a →
        a = hp1.length := by
  unfold heapComplete
  split
  · exact ⟨[], by simp, fun a ha => by simp at ha⟩
  · split
    · exact ⟨[], by simp, fun a ha => by simp at ha⟩
    · rename_i content hext
      exact ⟨[current ++ [Message.mk "assistant" (pyStrip content)]], rfl,
        fun a ha => (Except.ok.inj ha).symm⟩

/-- The heap after get_agent_response_heap extends the initial heap, and a
returned address is never an address of the initial heap. -/
theorem get_agent_response_heap_extends {ε : Type} (env : String → Option String)
    (month : String) (provider : String → List Message → Except ε CompletionResponse)
    (hp : Heap) (addr : Nat) :
    ∃ ext : Heap, (get_agent_response_heap env month provider hp addr).1 = hp ++ ext ∧
      ∀ a, (get_agent_response_heap env month provider hp addr).2 = Except.ok a →
        hp.length ≤ a := by
  simp only [get_agent_response_heap]
  cases hb : needsFresh (hp[addr]?.getD []) with
  | false =>
    simp only [hb, Bool.false_eq_true, if_false]
    obtain ⟨ext, h1, h2⟩ :=
      heapComplete_extends provider (MODEL_NAME env) hp (hp[addr]?.getD [])
    exact ⟨ext, h1, fun a ha => le_of_eq (h2 a ha).symm⟩
  | true =>
    simp only [hb, if_true]
    obtain ⟨ext, h1, h2⟩ := heapComplete_extends provider (MODEL_NAME env)
      (hp ++ [Message.mk "system" (SYSTEM_PROMPT month) :: hp[addr]?.getD []])
      ((hp ++ [Message.mk "system" (SYSTEM_PROMPT month) :: hp[addr]?.getD []])[hp.length]?.getD [])
    refine ⟨[Message.mk "system" (SYSTEM_PROMPT month) :: hp[addr]?.getD []] ++ ext, ?_, ?_⟩
    · rw [h1, List.append_assoc]
    · intro a ha
      have h3 := h2 a ha
      rw [List.length_append] at h3
      omega

/-- C6: get_agent_response never mutates the caller sequence: after the
call the caller list holds, element for element, the value it held
before, and the returned history is a newly produced list living at a
fresh address, never the caller address. -/
theorem caller_history_not_mutated {ε : Type} (env : String → Option String)
    (month : String) (provider : String → List Message → Except ε CompletionResponse)
    (hp : Heap) (addr : Nat) (ha : addr < hp.length) :
    (get_agent_response_heap env month provider hp addr).1[addr]? = hp[addr]? ∧
    ∀ a, (get_agent_response_heap env month provider hp addr).2 = Except.ok a →
      a ≠ addr := by
  obtain ⟨ext, h1, h2⟩ := get_agent_response_heap_extends env month provider hp addr
  refine ⟨?_, fun a hok => ?_⟩
  · rw [h1]
    exact List.getElem?_append_left ha
  · have h3 := h2 a hok
    omega

/-- Witness for caller_history_not_mutated at a concrete one-list heap. -/
theorem caller_history_not_mutated_witness :
    (get_agent_response_heap (fun _ => none) "January"
        (fun _ _ => (Except.ok (okResponse "yo") : Except Unit CompletionResponse))
        [[Message.mk "user" "hi"]] 0).1[0]? = some [Message.mk "user" "hi"] := by
  have h := caller_history_not_mutated (fun _ => none) "January"
    (fun _ _ => (Except.ok (okResponse "yo") : Except Unit CompletionResponse))
    [[Message.mk "user" "hi"]] 0 (by decide)
  rw [h.1]
  rfl

/-- C7: the system prompt is a single constant computed from a fixed
template together with the month name and the fixed country value Spain,
passed through textwrap.dedent; it is the content of the synthesized
system message whenever one is prepended. -/
theorem system_prompt_template (month : String) (h : List Message)
    (hcond : h = [] ∨ h.head?.map Message.role ≠ some "system") :
    SYSTEM_PROMPT month = dedent (SYSTEM_PROMPT_raw month) ∧
    (∃ before after : List Char,
        (SYSTEM_PROMPT_raw month).data = before ++ month.data ++ after ∧
        ∃ a b : List Char, after = a ++ "Spain".data ++ b) ∧
    (current_messages (SYSTEM_PROMPT month) h).head? =
      some (Message.mk "system" (SYSTEM_PROMPT month)) := by
  refine ⟨rfl, ?_, ?_⟩
  · refine ⟨promptPiece1.data ++ promptPiece2a.data,
      promptPiece2b.data ++ promptPiece3.data ++ promptPiece4.data, ?_, ?_⟩
    · simp [SYSTEM_PROMPT_raw, String.data_append, List.append_assoc]
    · have hsplit : promptPiece2b.data =
          (" and the country is ").data ++ "Spain".data ++
            (".\n        - Avoid using meat, cheese, eggs, and other dairy products.\n    ").data := by
        decide
      refine ⟨(" and the country is ").data,
        (".\n        - Avoid using meat, cheese, eggs, and other dairy products.\n    ").data ++
          promptPiece3.data ++ promptPiece4.data, ?_⟩
      rw [hsplit]
      simp [List.append_assoc]
  · rcases hcond with hnil | hrole
    · subst hnil
      rfl
    · cases h with
      | nil => rfl
      | cons m t =>
        have hb : (m.role != "system") = true := bne_iff_ne.mpr (by simpa using hrole)
        simp [current_messages, hb]

/-- Witness for system_prompt_template at the January prompt and the empty
history. -/
theorem system_prompt_template_witness :
    (current_messages (SYSTEM_PROMPT "January") []).head? =
      some (Message.mk "system" (SYSTEM_PROMPT "January")) :=
  (system_prompt_template "January" [] (Or.inl rfl)).2.2

/-- C8: the model identifier handed to the completion provider is the value
of the MODEL_NAME environment variable when it is set, and the fixed
default string when it is unset. -/
theorem model_name_from_environment (env : String → Option String) (month : String)
    (h : List Message) (v : String) :
    ((env "MODEL_NAME" = some v → MODEL_NAME env = v) ∧
     (env "MODEL_NAME" = none → MODEL_NAME env = "gpt-4o-mini")) ∧
    get_agent_response env month (fun name _ => Except.error name) h =
      Except.error (AgentError.provider (MODEL_NAME env)) := by
  refine ⟨⟨fun he => ?_, fun he => ?_⟩, rfl⟩
  · unfold MODEL_NAME
    rw [he]
    rfl
  · unfold MODEL_NAME
    rw [he]
    rfl

/-- Witness for model_name_from_environment for a set and an unset
environment variable. -/
theorem model_name_from_environment_witness :
    MODEL_NAME (fun _ => some "gpt-4") = "gpt-4" ∧
    MODEL_NAME (fun _ => none) = "gpt-4o-mini" :=
  ⟨((model_name_from_environment (fun _ => some "gpt-4") "January" [] "gpt-4").1).1 rfl,
   ((model_name_from_environment (fun _ => none) "January" [] "x").1).2 rfl⟩

end RecipeChatbot
